import Mathlib

/-!
Verification of the lab downtime tracker (`src/app.py`).

The application records equipment downtime events: a device registry, fault
records with a start instant, an optional end instant and a derived duration in
whole minutes, a date-range listing joined with device names, a display
projection, and an admin login gate.

Shallow embedding choices:
* UTC instants are integers, counting seconds since the Unix epoch
  (the code stores ISO-8601 UTC strings; at second granularity their ordering
  and differences coincide with the integer model).
* The fixed zone `Europe/Istanbul` has had a constant UTC+3 offset with no
  daylight saving since 2016, so local-to-UTC conversion is subtraction of a
  constant offset.
* `strftime` civil-calendar rendering is embedded through the standard
  days-from-civil / civil-from-days proleptic-Gregorian algorithms.
* Database tables become Lean lists of rows; every handler becomes a function
  from the old table state to the new table state plus an optional error,
  mirroring that a handler which reports a validation error returns before any
  SQL write executes.
-/

namespace LabDowntime

/-- A UTC instant: seconds since the Unix epoch. -/
abbrev Instant := Int

/-- `TZ = ZoneInfo("Europe/Istanbul")` (src/app.py line 15): fixed UTC+3,
expressed in seconds. -/
def tzOffsetSeconds : Int := 3 * 3600

/-- Days since the Unix epoch of a proleptic-Gregorian civil date
(the calendar arithmetic underlying `datetime.combine`). -/
def daysFromCivil (y m d : Int) : Int :=
  let y2 := if m ≤ 2 then y - 1 else y
  let era := Int.fdiv y2 400
  let yoe := y2 - era * 400
  let mp := if m > 2 then m - 3 else m + 9
  let doy := Int.fdiv (153 * mp + 2) 5 + d - 1
  let doe := yoe * 365 + Int.fdiv yoe 4 - Int.fdiv yoe 100 + doy
  era * 146097 + doe - 719468

/-- Civil date (year, month, day) of a day count since the Unix epoch
(the calendar arithmetic underlying `strftime`). -/
def civilFromDays (z0 : Int) : Int × Int × Int :=
  let z := z0 + 719468
  let era := Int.fdiv z 146097
  let doe := z - era * 146097
  let yoe := Int.fdiv (doe - Int.fdiv doe 1460 + Int.fdiv doe 36524 - Int.fdiv doe 146096) 365
  let y := yoe + era * 400
  let doy := doe - (365 * yoe + Int.fdiv yoe 4 - Int.fdiv yoe 100)
  let mp := Int.fdiv (5 * doy + 2) 153
  let d := doy - Int.fdiv (153 * mp + 2) 5 + 1
  let m := if mp < 10 then mp + 3 else mp - 9
  (if m ≤ 2 then y + 1 else y, m, d)

/-- Two-digit zero padding, as in the `%m`, `%d`, `%H`, `%M` strftime fields. -/
def pad2 (n : Int) : String := if n < 10 then "0" ++ toString n else toString n

/-- A local wall-clock date and time as entered in the form widgets
(`st.date_input` + `st.time_input`, combined by `datetime.combine`). -/
structure LocalDT where
  year : Int
  month : Int
  day : Int
  hour : Int
  minute : Int
deriving Repr, DecidableEq

/-- `datetime.combine(date, time).replace(tzinfo=TZ).astimezone(timezone.utc)`
(src/app.py lines 214-215, 220, 224): interpret the wall clock in the fixed
zone and convert to UTC. -/
def LocalDT.toInstant (dt : LocalDT) : Instant :=
  daysFromCivil dt.year dt.month dt.day * 86400 + dt.hour * 3600 + dt.minute * 60
    - tzOffsetSeconds

/-- Helper for `str.split()` with no separator: accumulate the current word in
reverse and emit the maximal runs of non-whitespace characters, discarding
empty pieces (leading and trailing whitespace is thus ignored, which subsumes
the redundant `.strip()`). -/
def pyWords : List Char → List Char → List (List Char)
  | [], acc => if acc.isEmpty then [] else [acc.reverse]
  | c :: cs, acc =>
    if c.isWhitespace then
      if acc.isEmpty then pyWords cs [] else acc.reverse :: pyWords cs []
    else pyWords cs (c :: acc)

/-- `normalize_name` (src/app.py lines 126-127):
`" ".join((name or "").strip().split())` — split on whitespace runs, drop the
empty pieces, rejoin with single spaces. -/
def normalize_name (name : String) : String :=
  String.intercalate " " ((pyWords name.data []).map String.mk)

/-- SQL `lower(...)` / Python `str.lower()`: characterwise ASCII case
folding, as used by the duplicate check
`WHERE lower(name)=lower(:n)` (src/app.py line 169). -/
def py_lower (s : String) : String := String.mk (s.data.map Char.toLower)

/-- `compute_duration_min` (src/app.py lines 129-134): `None` when either
instant is absent, else `max(0, int((e - s).total_seconds() // 60))`; Python
floor division `//` is `Int.fdiv`. -/
def compute_duration_min (start_iso end_iso : Option Instant) : Option Int :=
  match start_iso, end_iso with
  | some s, some e => some (max 0 (Int.fdiv (e - s) 60))
  | _, _ => none

/-- `to_local_str` (src/app.py lines 136-149): empty string on an absent
value, else `strftime('%Y-%m-%d %H:%M')` after converting to the fixed zone. -/
def to_local_str (iso_ts : Option Instant) : String :=
  match iso_ts with
  | none => ""
  | some t =>
    let lt := t + tzOffsetSeconds
    let days := Int.fdiv lt 86400
    let secs := lt - days * 86400
    let c := civilFromDays days
    let hh := Int.fdiv secs 3600
    let mm := Int.fdiv (secs - 3600 * hh) 60
    toString c.1 ++ "-" ++ pad2 c.2.1 ++ "-" ++ pad2 c.2.2 ++ " " ++ pad2 hh ++ ":" ++ pad2 mm

/-- A row of the `devices` table. -/
structure Device where
  id : Nat
  name : String
  created_at : Instant
deriving Repr, DecidableEq

/-- The two validation outcomes of the add-device branch of `page_devices`. -/
inductive DeviceError
  | emptyName
  | duplicateName
deriving Repr, DecidableEq

/-- The admin add-device branch of `page_devices` (src/app.py lines 160-179):
normalize the raw name; empty → error, case-insensitive duplicate
(`lower(name)=lower(:n)`) → duplicate warning, otherwise insert with the
current UTC timestamp. Returns the new table state plus an optional error;
an error path performs no insert. -/
def register (devices : List Device) (nextId : Nat) (now : Instant) (raw : String) :
    List Device × Option DeviceError :=
  let name := normalize_name raw
  if name = "" then (devices, some DeviceError.emptyName)
  else if devices.any (fun d => py_lower d.name = py_lower name) then
    (devices, some DeviceError.duplicateName)
  else (devices ++ [⟨nextId, name, now⟩], none)

/-- A row of the `faults` table. -/
structure Fault where
  id : Nat
  device_id : Nat
  reason : Option String
  started_utc : Instant
  ended_utc : Option Instant
  duration_min : Option Int
  created_at : Instant
deriving Repr, DecidableEq

/-- The validation outcome of the fault create/update handlers
(`"Bitiş başlangıçtan önce olamaz."`). -/
inductive FaultError
  | endBeforeStart
deriving Repr, DecidableEq

/-- `reason or None` (src/app.py lines 230, 354): an empty reason string is
stored as NULL. -/
def reasonOrNone (reason : String) : Option String :=
  if reason = "" then none else some reason

/-- The submit branch of `page_new_fault` (src/app.py lines 213-231): convert
the local start to UTC; with no end, insert an open row; with an end, reject
`en_local < st_local` before any write, otherwise insert with the duration of
`compute_duration_min`. Aware-datetime comparison in Python compares the
underlying instants. -/
def create_fault (faults : List Fault) (nextId : Nat) (device_id : Nat) (reason : String)
    (st_local : LocalDT) (end_input : Option LocalDT) (now : Instant) :
    List Fault × Option FaultError :=
  let start_utc := st_local.toInstant
  match end_input with
  | none =>
    (faults ++ [⟨nextId, device_id, reasonOrNone reason, start_utc, none, none, now⟩], none)
  | some en_local =>
    if en_local.toInstant < st_local.toInstant then (faults, some FaultError.endBeforeStart)
    else
      let end_utc := en_local.toInstant
      (faults ++ [⟨nextId, device_id, reasonOrNone reason, start_utc, some end_utc,
        compute_duration_min (some start_utc) (some end_utc), now⟩], none)

/-- The save branch of the edit panel in `page_list_export` (src/app.py lines
329-359): same end-before-start validation (via `st.stop()` before any write),
then `UPDATE faults SET device_id, reason, started_utc, ended_utc,
duration_min WHERE id = :id`, the duration recomputed inline as
`max(0, int((e - s).total_seconds() // 60))`. -/
def update_fault (faults : List Fault) (edit_id : Nat) (device_id : Nat) (reason : String)
    (st_local : LocalDT) (end_input : Option LocalDT) :
    List Fault × Option FaultError :=
  let start_utc := st_local.toInstant
  match end_input with
  | none =>
    (faults.map (fun f => if f.id = edit_id then
      { f with device_id := device_id, reason := reasonOrNone reason,
               started_utc := start_utc, ended_utc := none, duration_min := none }
      else f), none)
  | some en_local =>
    if en_local.toInstant < st_local.toInstant then (faults, some FaultError.endBeforeStart)
    else
      let end_utc := en_local.toInstant
      (faults.map (fun f => if f.id = edit_id then
        { f with device_id := device_id, reason := reasonOrNone reason,
                 started_utc := start_utc, ended_utc := some end_utc,
                 duration_min := some (max 0 (Int.fdiv (end_utc - start_utc) 60)) }
        else f), none)

/-- A row of the range query in `page_list_export` (src/app.py lines 247-255):
a fault joined with its device name (`d.name AS cihaz`). -/
structure FaultRow where
  id : Nat
  cihaz : String
  neden : Option String
  started_utc : Instant
  ended_utc : Option Instant
  duration_min : Option Int
  created_at : Instant
deriving Repr, DecidableEq

/-- Build the joined row for a fault and its device name. -/
def rowOfJoin (f : Fault) (devName : String) : FaultRow :=
  ⟨f.id, devName, f.reason, f.started_utc, f.ended_utc, f.duration_min, f.created_at⟩

/-- `ORDER BY f.started_utc DESC` as a Boolean comparator. -/
def startedDesc (r1 r2 : FaultRow) : Bool := r2.started_utc ≤ r1.started_utc

/-- The range query of `page_list_export` (src/app.py lines 247-255):
`SELECT ... FROM faults f JOIN devices d ON d.id = f.device_id WHERE
f.started_utc BETWEEN :a AND :b ORDER BY f.started_utc DESC`. The inner join
keeps exactly the faults whose device id resolves; BETWEEN is inclusive at
both endpoints. -/
def listByRange (devices : List Device) (faults : List Fault) (a b : Instant) :
    List FaultRow :=
  ((faults.filterMap (fun f =>
      (devices.find? (fun d => d.id = f.device_id)).map (fun d => rowOfJoin f d.name))).filter
    (fun r => decide (a ≤ r.started_utc) && decide (r.started_utc ≤ b))).mergeSort startedDesc

/-- `pd.Timestamp.min.time()` (src/app.py line 243): `pandas.Timestamp.min`
is 1677-09-21 00:12:43.145224193 (the int64-nanosecond epoch bound), so its
time-of-day part is 00:12:43.145224 — not midnight. A whole-second instant
satisfies `t ≥ 00:12:43.145224` exactly when `t ≥ 00:12:44`, so at the second
granularity of the model the inclusive lower time-of-day bound is
`12*60 + 44 = 764` seconds past local midnight. -/
def pdMinTimeCeilSeconds : Int := 12 * 60 + 44

/-- `pd.Timestamp.max.time()` (src/app.py line 244): `pandas.Timestamp.max`
is 2262-04-11 23:47:16.854775807, so its time-of-day part is
23:47:16.854775 — not end of day. A whole-second instant satisfies
`t ≤ 23:47:16.854775` exactly when `t ≤ 23:47:16`, so at the second
granularity of the model the inclusive upper time-of-day bound is
`23*3600 + 47*60 + 16 = 85636` seconds past local midnight. -/
def pdMaxTimeFloorSeconds : Int := 23 * 3600 + 47 * 60 + 16

/-- Derivation of the lower query bound (src/app.py line 243):
`pd.Timestamp.combine(dfrom, pd.Timestamp.min.time())` localized to the fixed
zone and converted to UTC — local 00:12:43.145224 of the from-date, for a
date given as days since the epoch (inclusive whole-second form). -/
def rangeStartUtc (d1 : Int) : Int := d1 * 86400 + pdMinTimeCeilSeconds - tzOffsetSeconds

/-- Derivation of the upper query bound (src/app.py line 244):
`pd.Timestamp.combine(dto, pd.Timestamp.max.time())` localized to the fixed
zone and converted to UTC — local 23:47:16.854775 of the to-date (inclusive
whole-second form). -/
def rangeEndUtc (d2 : Int) : Int := d2 * 86400 + pdMaxTimeFloorSeconds - tzOffsetSeconds

/-- The local calendar day (days since the epoch) containing a UTC instant. -/
def localDay (t : Int) : Int := Int.fdiv (t + tzOffsetSeconds) 86400

/-- The local time of day of a UTC instant, in seconds past local midnight. -/
def localSecondOfDay (t : Int) : Int := t + tzOffsetSeconds - 86400 * localDay t

/-- The open-status label `"Açık"` (src/app.py line 259). -/
def statusOpen : String := "Açık"

/-- The closed-status label `"Kapalı"` (src/app.py line 259). -/
def statusClosed : String := "Kapalı"

/-- One rendered line of the display table. -/
structure DisplayRow where
  id : Nat
  cihaz : String
  durum : String
  neden : Option String
  start_str : String
  end_str : String
  dur_str : String
deriving Repr, DecidableEq

/-- The display projection of `page_list_export` (src/app.py lines 257-269):
`durum = "Açık"` when `ended_utc` is NULL else `"Kapalı"`; local strings via
`to_local_str`; `duration_min.fillna("")` renders an absent duration blank. -/
def display_row (r : FaultRow) : DisplayRow :=
  ⟨r.id, r.cihaz,
   (if r.ended_utc = none then statusOpen else statusClosed),
   r.neden,
   to_local_str (some r.started_utc),
   to_local_str r.ended_utc,
   (match r.duration_min with | none => "" | some n => toString n)⟩

/-- The two sources an admin token may come from: `st.secrets` and the
`ADMIN_TOKEN` environment variable (src/app.py lines 111-117). `none` models
an absent key; `some ""` an empty value. -/
structure AdminConfig where
  secretsToken : Option String
  envToken : Option String
deriving Repr, DecidableEq

/-- Python truthiness of an optional string: `None` and `""` are falsy. -/
def truthy : Option String → Bool
  | none => false
  | some s => s ≠ ""

/-- Token lookup of `admin_login_ui` (src/app.py lines 111-117): take the
secret-store value; `if not token`, fall back to the environment variable. -/
def admin_token (cfg : AdminConfig) : Option String :=
  if truthy cfg.secretsToken then cfg.secretsToken else cfg.envToken

/-- One submit of the login form (src/app.py lines 110-123): from the
anonymous state, `if token and pwd == token` sets `admin_authed = True`,
otherwise the state is unchanged and an error is shown; an authenticated
session stays authenticated (the form is only offered to anonymous ones). -/
def login_step (cfg : AdminConfig) (authed : Bool) (pwd : String) : Bool :=
  if authed then true
  else
    match admin_token cfg with
    | none => false
    | some t => if t ≠ "" ∧ pwd = t then true else false

/-- A session: fold the login step over a sequence of submitted passwords,
starting anonymous (`admin_authed = False`, src/app.py lines 100-101). -/
def login_run (cfg : AdminConfig) (pwds : List String) : Bool :=
  pwds.foldl (login_step cfg) false

/-- The error outcomes of `closeNow` described in the specification. -/
inductive CloseError
  | notFound
  | alreadyClosed
deriving Repr, DecidableEq

/-- Modelled from the spec: the operation `closeNow(id) -> Fault | NotFoundError
| AlreadyClosedError` of §4.4 is described in the specification but has no
implementation in `src/app.py`. Per the spec's words it is only valid when the
record's end instant is currently absent, sets the end instant to the current
UTC instant and recomputes the duration; an unknown id is a not-found error and
a present end instant an already-closed error, each leaving the table
unchanged. -/
def closeNow (faults : List Fault) (fid : Nat) (now : Instant) :
    List Fault × Option CloseError :=
  match faults.find? (fun f => f.id = fid) with
  | none => (faults, some CloseError.notFound)
  | some f =>
    match f.ended_utc with
    | some _ => (faults, some CloseError.alreadyClosed)
    | none =>
      (faults.map (fun g => if g.id = fid then
        { g with ended_utc := some now,
                 duration_min := compute_duration_min (some g.started_utc) (some now) }
        else g), none)

end LabDowntime

namespace LabDowntime

/-- Claim C1: the duration rule — for every pair of UTC instants, an absent end
gives an absent result, and a present end with `end ≥ start` gives
`floor((end − start) in seconds / 60)`, which is non-negative. -/
theorem C1_duration_rule (s : Instant) (e : Option Instant) :
    (e = none → compute_duration_min (some s) e = none) ∧
    (∀ ev, e = some ev → s ≤ ev →
      compute_duration_min (some s) e = some (Int.fdiv (ev - s) 60) ∧
      0 ≤ Int.fdiv (ev - s) 60) := by
  constructor
  · rintro rfl; rfl
  · rintro ev rfl hle
    have h0 : 0 ≤ Int.fdiv (ev - s) 60 := Int.fdiv_nonneg (sub_nonneg.mpr hle) (by norm_num)
    exact ⟨by simp [compute_duration_min, max_eq_right h0], h0⟩

/-- Witness for C1 at concrete instants. -/
theorem C1_duration_rule_witness :
    compute_duration_min (some 100) none = none ∧
    (compute_duration_min (some 100) (some 2800) = some (Int.fdiv (2800 - 100) 60) ∧
      0 ≤ Int.fdiv (2800 - 100) 60) :=
  ⟨(C1_duration_rule 100 none).1 rfl,
   (C1_duration_rule 100 (some 2800)).2 2800 rfl (by decide)⟩

/-- Claim C10: on any two present instants `compute_duration_min` is total and
non-negative; a negative elapsed span (end before start) is clamped to 0. -/
theorem C10_duration_total_nonneg (s e : Instant) :
    ∃ d, compute_duration_min (some s) (some e) = some d ∧ 0 ≤ d ∧ (e < s → d = 0) := by
  refine ⟨max 0 (Int.fdiv (e - s) 60), rfl, le_max_left _ _, ?_⟩
  intro hlt
  have hneg : Int.fdiv (e - s) 60 < 0 := Int.fdiv_neg' (sub_neg.mpr hlt) (by norm_num)
  exact max_eq_left (le_of_lt hneg)

/-- Witness for C10 at a pair with end before start. -/
theorem C10_duration_total_nonneg_witness :
    ∃ d, compute_duration_min (some 10) (some 0) = some d ∧ 0 ≤ d ∧ ((0:Int) < 10 → d = 0) :=
  C10_duration_total_nonneg 10 0

/-- Claim C2: when an end instant is supplied whose local time is strictly
before the start local time, both the create handler and the update handler
report the end-before-start validation error and return the fault table
exactly as it was. -/
theorem C2_end_before_start_rejected (faults : List Fault) (nextId edit_id device_id : Nat)
    (reason : String) (st_local en_local : LocalDT) (now : Instant)
    (h : en_local.toInstant < st_local.toInstant) :
    create_fault faults nextId device_id reason st_local (some en_local) now
      = (faults, some FaultError.endBeforeStart) ∧
    update_fault faults edit_id device_id reason st_local (some en_local)
      = (faults, some FaultError.endBeforeStart) := by
  constructor
  · simp [create_fault, h]
  · simp [update_fault, h]

/-- Witness for C2 at a concrete end-before-start pair. -/
theorem C2_end_before_start_rejected_witness :
    create_fault [] 1 7 "r" ⟨2024, 3, 10, 9, 0⟩ (some ⟨2024, 3, 10, 8, 0⟩) 0
      = ([], some FaultError.endBeforeStart) ∧
    update_fault [] 1 7 "r" ⟨2024, 3, 10, 9, 0⟩ (some ⟨2024, 3, 10, 8, 0⟩)
      = ([], some FaultError.endBeforeStart) :=
  C2_end_before_start_rejected [] 1 1 7 "r" ⟨2024, 3, 10, 9, 0⟩ ⟨2024, 3, 10, 8, 0⟩ 0
    (by decide)

/-- Claim C6: creating a fault with local start 2024-03-10 09:00 and local end
2024-03-10 09:45 in Europe/Istanbul stores duration 45, and converting the
stored UTC instants back to the zone reproduces the identical local strings. -/
theorem C6_roundtrip_istanbul :
    (create_fault [] 1 7 "pompa" ⟨2024, 3, 10, 9, 0⟩ (some ⟨2024, 3, 10, 9, 45⟩) 0).2 = none ∧
    ∃ f, (create_fault [] 1 7 "pompa" ⟨2024, 3, 10, 9, 0⟩ (some ⟨2024, 3, 10, 9, 45⟩) 0).1 = [f] ∧
      f.duration_min = some 45 ∧
      to_local_str (some f.started_utc) = "2024-03-10 09:00" ∧
      to_local_str f.ended_utc = "2024-03-10 09:45" := by
  refine ⟨rfl, ⟨_, rfl, ?_, ?_, ?_⟩⟩ <;> rfl

end LabDowntime

namespace LabDowntime

/-- Claim C5: `register` normalizes the submitted name (trim and collapse
internal whitespace), rejects an empty normalized result, rejects a
case-insensitive match with an existing device, and in particular a
registration of "Cobas t711" followed by "cobas   t711" yields a duplicate
error with the registry unchanged. -/
theorem C5_register_normalize_dup (devices : List Device) (nextId : Nat) (now t0 t1 : Instant)
    (raw : String) :
    (normalize_name raw = "" →
      register devices nextId now raw = (devices, some DeviceError.emptyName)) ∧
    (normalize_name raw ≠ "" →
      (∃ d ∈ devices, py_lower d.name = py_lower (normalize_name raw)) →
      register devices nextId now raw = (devices, some DeviceError.duplicateName)) ∧
    normalize_name "  Cobas \t t711 " = "Cobas t711" ∧
    register [] 1 t0 "Cobas t711" = ([⟨1, "Cobas t711", t0⟩], none) ∧
    register [⟨1, "Cobas t711", t0⟩] 2 t1 "cobas   t711"
      = ([⟨1, "Cobas t711", t0⟩], some DeviceError.duplicateName) := by
  refine ⟨?_, ?_, by decide, rfl, rfl⟩
  · intro h
    simp [register, h]
  · intro hne hdup
    have hany : (devices.any (fun d => py_lower d.name = py_lower (normalize_name raw))) = true := by
      rw [List.any_eq_true]
      obtain ⟨d, hd, he⟩ := hdup
      exact ⟨d, hd, by simp [he]⟩
    simp [register, hne, hany]

/-- Witness for C5 at a concrete registry: an all-whitespace name is rejected
as empty, and an uppercase variant of an existing name as a duplicate. -/
theorem C5_register_normalize_dup_witness :
    register [⟨1, "Cobas t711", 5⟩] 2 7 "   "
      = ([⟨1, "Cobas t711", 5⟩], some DeviceError.emptyName) ∧
    register [⟨1, "Cobas t711", 5⟩] 2 7 "COBAS T711"
      = ([⟨1, "Cobas t711", 5⟩], some DeviceError.duplicateName) :=
  ⟨(C5_register_normalize_dup [⟨1, "Cobas t711", 5⟩] 2 7 0 0 "   ").1 (by decide),
   (C5_register_normalize_dup [⟨1, "Cobas t711", 5⟩] 2 7 0 0 "COBAS T711").2.1 (by decide)
     ⟨⟨1, "Cobas t711", 5⟩, by decide, by decide⟩⟩

/-- Claim C7: in the display projection, a fault with an absent end instant is
rendered with the open-status label, an empty end string and a blank duration;
a fault with a present end instant gets the closed-status label. The
hypothesis is the store invariant that an open fault has no stored duration. -/
theorem C7_display_open_closed (r : FaultRow)
    (hinv : r.ended_utc = none → r.duration_min = none) :
    (r.ended_utc = none →
      (display_row r).durum = statusOpen ∧ (display_row r).end_str = "" ∧
      (display_row r).dur_str = "") ∧
    (∀ e, r.ended_utc = some e → (display_row r).durum = statusClosed) := by
  constructor
  · intro h
    refine ⟨?_, ?_, ?_⟩ <;> simp [display_row, h, hinv h, to_local_str]
  · intro e h
    simp [display_row, h]

/-- Witness for C7 at one open and one closed row. -/
theorem C7_display_open_closed_witness :
    ((display_row ⟨1, "A", none, 0, none, none, 0⟩).durum = statusOpen ∧
     (display_row ⟨1, "A", none, 0, none, none, 0⟩).end_str = "" ∧
     (display_row ⟨1, "A", none, 0, none, none, 0⟩).dur_str = "") ∧
    (display_row ⟨2, "A", none, 0, some 60, some 1, 0⟩).durum = statusClosed :=
  ⟨(C7_display_open_closed ⟨1, "A", none, 0, none, none, 0⟩ (fun _ => rfl)).1 rfl,
   (C7_display_open_closed ⟨2, "A", none, 0, some 60, some 1, 0⟩ (fun h => nomatch h)).2 60 rfl⟩

/-- Claim C8: a validation-passing update overwrites exactly the mutable
fields — device reference, reason, start instant, end instant and recomputed
duration — of the row with the edited id, leaves every other row untouched,
and never alters any row's id or creation timestamp. -/
theorem C8_update_frame (faults : List Fault) (edit_id device_id : Nat) (reason : String)
    (st_local : LocalDT) (end_input : Option LocalDT)
    (hok : (update_fault faults edit_id device_id reason st_local end_input).2 = none) :
    List.Forall₂ (fun f f' : Fault =>
        f'.id = f.id ∧ f'.created_at = f.created_at ∧
        (f.id = edit_id →
          f'.device_id = device_id ∧
          f'.reason = reasonOrNone reason ∧
          f'.started_utc = st_local.toInstant ∧
          f'.ended_utc = end_input.map LocalDT.toInstant ∧
          f'.duration_min = end_input.map (fun en =>
            max 0 (Int.fdiv (en.toInstant - st_local.toInstant) 60))) ∧
        (f.id ≠ edit_id → f' = f))
      faults (update_fault faults edit_id device_id reason st_local end_input).1 := by
  cases end_input with
  | none =>
    simp only [update_fault]
    refine List.forall₂_map_right_iff.mpr (List.forall₂_same.mpr ?_)
    intro f hf
    by_cases hid : f.id = edit_id <;> simp [hid]
  | some en =>
    by_cases hlt : en.toInstant < st_local.toInstant
    · rw [show update_fault faults edit_id device_id reason st_local (some en)
            = (faults, some FaultError.endBeforeStart) by simp [update_fault, hlt]] at hok
      exact absurd hok (by simp)
    · rw [show update_fault faults edit_id device_id reason st_local (some en)
            = ((faults.map (fun f => if f.id = edit_id then
                { f with device_id := device_id, reason := reasonOrNone reason,
                         started_utc := st_local.toInstant, ended_utc := some en.toInstant,
                         duration_min := some (max 0
                           (Int.fdiv (en.toInstant - st_local.toInstant) 60)) }
                else f)), none) by simp [update_fault, hlt]]
      refine List.forall₂_map_right_iff.mpr (List.forall₂_same.mpr ?_)
      intro f hf
      by_cases hid : f.id = edit_id <;> simp [hid]

end LabDowntime

namespace LabDowntime

/-- Witness for C8: a concrete two-row table where row 1 is edited. -/
theorem C8_update_frame_witness :
    List.Forall₂ (fun f f' : Fault =>
        f'.id = f.id ∧ f'.created_at = f.created_at ∧
        (f.id = 1 →
          f'.device_id = 9 ∧
          f'.reason = reasonOrNone "yeni" ∧
          f'.started_utc = LocalDT.toInstant ⟨2024, 1, 2, 10, 0⟩ ∧
          f'.ended_utc = (some ⟨2024, 1, 2, 11, 30⟩ : Option LocalDT).map LocalDT.toInstant ∧
          f'.duration_min = (some ⟨2024, 1, 2, 11, 30⟩ : Option LocalDT).map (fun en =>
            max 0 (Int.fdiv (en.toInstant - LocalDT.toInstant ⟨2024, 1, 2, 10, 0⟩) 60))) ∧
        (f.id ≠ 1 → f' = f))
      [⟨1, 7, some "eski", 100, some 160, some 1, 50⟩, ⟨2, 7, none, 200, none, none, 60⟩]
      (update_fault [⟨1, 7, some "eski", 100, some 160, some 1, 50⟩,
                     ⟨2, 7, none, 200, none, none, 60⟩] 1 9 "yeni"
        ⟨2024, 1, 2, 10, 0⟩ (some ⟨2024, 1, 2, 11, 30⟩)).1 :=
  C8_update_frame [⟨1, 7, some "eski", 100, some 160, some 1, 50⟩,
                   ⟨2, 7, none, 200, none, none, 60⟩] 1 9 "yeni"
    ⟨2024, 1, 2, 10, 0⟩ (some ⟨2024, 1, 2, 11, 30⟩) (by decide)

/-- Claim C9: in the admin gate, if neither the secret store nor the
environment provides a (truthy) token, no sequence of submitted passwords ever
reaches the authenticated state; with a configured token, a single submission
from the anonymous state authenticates exactly when the password equals the
token. -/
theorem C9_admin_gate (cfg : AdminConfig) :
    (truthy cfg.secretsToken = false → truthy cfg.envToken = false →
      ∀ pwds : List String, login_run cfg pwds = false) ∧
    (∀ t, admin_token cfg = some t → t ≠ "" →
      ∀ pwd, (login_step cfg false pwd = true ↔ pwd = t)) := by
  constructor
  · intro hs he
    have htok : admin_token cfg = cfg.envToken := by
      simp [admin_token, hs]
    have hstep : ∀ pwd, login_step cfg false pwd = false := by
      intro pwd
      cases hev : cfg.envToken with
      | none => simp [login_step, htok, hev]
      | some s =>
        have hs0 : s = "" := by
          rw [hev] at he
          simpa [truthy] using he
        simp [login_step, htok, hev, hs0]
    intro pwds
    induction pwds with
    | nil => rfl
    | cons p ps ih =>
      show List.foldl (login_step cfg) (login_step cfg false p) ps = false
      rw [hstep p]
      exact ih
  · intro t ht hne pwd
    by_cases hp : pwd = t <;> simp [login_step, ht, hne, hp]

/-- Witness for C9: an unconfigured gate refuses a two-password session; a
configured gate accepts exactly the matching password. -/
theorem C9_admin_gate_witness :
    login_run ⟨none, some ""⟩ ["a", "b"] = false ∧
    (login_step ⟨some "s3", none⟩ false "s3" = true ↔ "s3" = "s3") :=
  ⟨(C9_admin_gate ⟨none, some ""⟩).1 rfl rfl ["a", "b"],
   (C9_admin_gate ⟨some "s3", none⟩).2 "s3" rfl (by decide) "s3"⟩

end LabDowntime

namespace LabDowntime

/-- Claim C3: the `closeNow` operation (modelled from the spec, absent from
`src/app.py`): on a fault whose end instant is present it returns the
already-closed error and leaves the table — in particular `ended_utc` —
unchanged; on an open fault it succeeds, setting the end instant to the
current UTC instant and recomputing the duration, while other rows stay put. -/
theorem C3_closeNow_spec (faults : List Fault) (fid : Nat) (now : Instant) (f : Fault)
    (hids : (faults.map Fault.id).Nodup) (hf : f ∈ faults) (hfid : f.id = fid) :
    (∀ e, f.ended_utc = some e →
      closeNow faults fid now = (faults, some CloseError.alreadyClosed)) ∧
    (f.ended_utc = none →
      (closeNow faults fid now).2 = none ∧
      { f with ended_utc := some now,
               duration_min := compute_duration_min (some f.started_utc) (some now) }
        ∈ (closeNow faults fid now).1 ∧
      ∀ g ∈ faults, g.id ≠ fid → g ∈ (closeNow faults fid now).1) := by
  have hfind : faults.find? (fun x => x.id = fid) = some f := by
    have h1 : (faults.find? (fun x => x.id = fid)).isSome :=
      List.find?_isSome.mpr ⟨f, hf, by simp [hfid]⟩
    obtain ⟨g, hg⟩ := Option.isSome_iff_exists.mp h1
    have hgm : g ∈ faults := List.mem_of_find?_eq_some hg
    have hgp : g.id = fid := by simpa using List.find?_some hg
    have hgf : g = f := List.inj_on_of_nodup_map hids hgm hf (by rw [hgp, hfid])
    rw [hg, hgf]
  constructor
  · intro e he
    simp [closeNow, hfind, he]
  · intro he
    refine ⟨by simp [closeNow, hfind, he], ?_, ?_⟩
    · simp only [closeNow, hfind, he, List.mem_map]
      exact ⟨f, hf, by simp [hfid]⟩
    · intro g hg hgid
      simp only [closeNow, hfind, he, List.mem_map]
      exact ⟨g, hg, by simp [hgid]⟩

/-- Witness for C3: an already-closed fault is refused; an open fault is
closed at the current instant with its duration recomputed. -/
theorem C3_closeNow_spec_witness :
    closeNow [⟨1, 7, none, 100, some 160, some 1, 50⟩] 1 500
      = ([⟨1, 7, none, 100, some 160, some 1, 50⟩], some CloseError.alreadyClosed) ∧
    ((closeNow [⟨2, 7, none, 100, none, none, 50⟩] 2 500).2 = none ∧
      (⟨2, 7, none, 100, some 500, compute_duration_min (some 100) (some 500), 50⟩ : Fault)
        ∈ (closeNow [⟨2, 7, none, 100, none, none, 50⟩] 2 500).1 ∧
      ∀ g ∈ [(⟨2, 7, none, 100, none, none, 50⟩ : Fault)], g.id ≠ 2 →
        g ∈ (closeNow [⟨2, 7, none, 100, none, none, 50⟩] 2 500).1) :=
  ⟨(C3_closeNow_spec [⟨1, 7, none, 100, some 160, some 1, 50⟩] 1 500
      ⟨1, 7, none, 100, some 160, some 1, 50⟩ (by decide) (by decide) rfl).1 160 rfl,
   (C3_closeNow_spec [⟨2, 7, none, 100, none, none, 50⟩] 2 500
      ⟨2, 7, none, 100, none, none, 50⟩ (by decide) (by decide) rfl).2 rfl⟩

end LabDowntime

namespace LabDowntime

/-- Claim C4 counterexample: the claimed equivalence "start instant in the
derived bounds iff its local date is in the inclusive date range" is false of
the program. The fault starting at local 00:05:00 of local day 0 (UTC instant
−10500) has its local date inside the one-day range `[0, 0]`, yet the query
over the bounds derived from that range — which begin at local 00:12:43.145224
of day 0, per `pd.Timestamp.min.time()` — returns no rows. -/
theorem C4_listByRange_date_equivalence_counterexample :
    localDay (-10500) = 0 ∧
    listByRange [⟨1, "A", 0⟩] [⟨1, 1, none, -10500, none, none, 0⟩]
      (rangeStartUtc 0) (rangeEndUtc 0) = [] := by
  refine ⟨by decide, ?_⟩
  rw [listByRange,
    show (([(⟨1, 1, none, -10500, none, none, 0⟩ : Fault)].filterMap (fun f =>
        (([(⟨1, "A", 0⟩ : Device)]).find? (fun d => d.id = f.device_id)).map
          (fun d => rowOfJoin f d.name))).filter
      (fun r => decide (rangeStartUtc 0 ≤ r.started_utc) &&
        decide (r.started_utc ≤ rangeEndUtc 0))) = [] from by decide]
  exact List.mergeSort_nil

/-- Claim C4 (amended): the range query returns exactly the faults whose start
instant lies in `[a, b]` inclusive of both endpoints, each joined with its
device name, and the result is ordered by start instant descending; lying
within the bounds derived from an inclusive local date range is equivalent to
the start instant's local date lying within that date range AND its local time
of day being at least 00:12:43.145224 on the first date and at most
23:47:16.854775 on the last date (the `pd.Timestamp.min.time()` /
`pd.Timestamp.max.time()` times-of-day the code combines the dates with) —
not to date membership alone. -/
theorem C4_listByRange_filter_sorted (devices : List Device) (faults : List Fault)
    (a b : Instant) (hids : (devices.map Device.id).Nodup) :
    (∀ r : FaultRow, r ∈ listByRange devices faults a b ↔
      ∃ f ∈ faults, ∃ d ∈ devices, d.id = f.device_id ∧
        a ≤ f.started_utc ∧ f.started_utc ≤ b ∧ r = rowOfJoin f d.name) ∧
    (listByRange devices faults a b).Pairwise
      (fun r1 r2 => r2.started_utc ≤ r1.started_utc) ∧
    (∀ d1 d2 t : Int,
      (rangeStartUtc d1 ≤ t ∧ t ≤ rangeEndUtc d2) ↔
      (d1 ≤ localDay t ∧ localDay t ≤ d2 ∧
       (localDay t = d1 → pdMinTimeCeilSeconds ≤ localSecondOfDay t) ∧
       (localDay t = d2 → localSecondOfDay t ≤ pdMaxTimeFloorSeconds))) := by
  refine ⟨?_, ?_, ?_⟩
  · intro r
    rw [listByRange, List.mem_mergeSort, List.mem_filter, List.mem_filterMap]
    constructor
    · rintro ⟨⟨f, hf, hmap⟩, hrange⟩
      obtain ⟨d, hdf, hrow⟩ := Option.map_eq_some'.mp hmap
      have hd : d ∈ devices := List.mem_of_find?_eq_some hdf
      have hdid : d.id = f.device_id := by simpa using List.find?_some hdf
      subst hrow
      rw [Bool.and_eq_true, decide_eq_true_eq, decide_eq_true_eq] at hrange
      exact ⟨f, hf, d, hd, hdid, hrange.1, hrange.2, rfl⟩
    · rintro ⟨f, hf, d, hd, hdid, ha, hb, rfl⟩
      have hfind : devices.find? (fun d2 => d2.id = f.device_id) = some d := by
        have h1 : (devices.find? (fun d2 => d2.id = f.device_id)).isSome :=
          List.find?_isSome.mpr ⟨d, hd, by simp [hdid]⟩
        obtain ⟨d2, hd2⟩ := Option.isSome_iff_exists.mp h1
        have hd2m : d2 ∈ devices := List.mem_of_find?_eq_some hd2
        have hd2p : d2.id = f.device_id := by simpa using List.find?_some hd2
        have hdd : d2 = d := List.inj_on_of_nodup_map hids hd2m hd (by rw [hd2p, hdid])
        rw [hd2, hdd]
      refine ⟨⟨f, hf, by rw [hfind]; rfl⟩, ?_⟩
      rw [Bool.and_eq_true, decide_eq_true_eq, decide_eq_true_eq]
      exact ⟨ha, hb⟩
  · have htrans : ∀ r1 r2 r3 : FaultRow, startedDesc r1 r2 = true →
        startedDesc r2 r3 = true → startedDesc r1 r3 = true := by
      intro r1 r2 r3 h12 h23
      rw [startedDesc, decide_eq_true_eq] at *
      exact le_trans h23 h12
    have htotal : ∀ r1 r2 : FaultRow, (startedDesc r1 r2 || startedDesc r2 r1) = true := by
      intro r1 r2
      rw [Bool.or_eq_true, startedDesc, startedDesc, decide_eq_true_eq, decide_eq_true_eq]
      exact le_total _ _
    exact (List.sorted_mergeSort htrans htotal _).imp
      (fun h => by rwa [startedDesc, decide_eq_true_eq] at h)
  · intro d1 d2 t
    simp only [rangeStartUtc, rangeEndUtc, localDay, localSecondOfDay,
      pdMinTimeCeilSeconds, pdMaxTimeFloorSeconds, tzOffsetSeconds]
    rw [Int.fdiv_eq_ediv _ (by norm_num)]
    omega

/-- Witness for C4 at a concrete pair of tables and the range `[0, 200]`. -/
theorem C4_listByRange_filter_sorted_witness :
    (∀ r : FaultRow, r ∈ listByRange [⟨1, "A", 0⟩, ⟨2, "B", 0⟩]
        [⟨1, 1, none, 100, none, none, 0⟩, ⟨2, 2, none, 300, none, none, 0⟩,
         ⟨3, 1, none, -50, none, none, 0⟩] 0 200 ↔
      ∃ f ∈ [(⟨1, 1, none, 100, none, none, 0⟩ : Fault), ⟨2, 2, none, 300, none, none, 0⟩,
             ⟨3, 1, none, -50, none, none, 0⟩],
        ∃ d ∈ [(⟨1, "A", 0⟩ : Device), ⟨2, "B", 0⟩], d.id = f.device_id ∧
          0 ≤ f.started_utc ∧ f.started_utc ≤ 200 ∧ r = rowOfJoin f d.name) ∧
    (listByRange [⟨1, "A", 0⟩, ⟨2, "B", 0⟩]
        [⟨1, 1, none, 100, none, none, 0⟩, ⟨2, 2, none, 300, none, none, 0⟩,
         ⟨3, 1, none, -50, none, none, 0⟩] 0 200).Pairwise
      (fun r1 r2 => r2.started_utc ≤ r1.started_utc) ∧
    (∀ d1 d2 t : Int,
      (rangeStartUtc d1 ≤ t ∧ t ≤ rangeEndUtc d2) ↔
      (d1 ≤ localDay t ∧ localDay t ≤ d2 ∧
       (localDay t = d1 → pdMinTimeCeilSeconds ≤ localSecondOfDay t) ∧
       (localDay t = d2 → localSecondOfDay t ≤ pdMaxTimeFloorSeconds))) :=
  C4_listByRange_filter_sorted [⟨1, "A", 0⟩, ⟨2, "B", 0⟩]
    [⟨1, 1, none, 100, none, none, 0⟩, ⟨2, 2, none, 300, none, none, 0⟩,
     ⟨3, 1, none, -50, none, none, 0⟩] 0 200 (by decide)

end LabDowntime
